import Mathlib

/-!
Shallow embedding of the local-engine connection bootstrap and routing
subsystem (`src/lib/src/api/engine/local/native.rs`) and the IndxDb
endpoint resolver (`src/lib/src/api/opt/endpoint/indxdb.rs`).

External collaborators (the `url` crate, the `flume` channels, the
`kvs::Datastore` engine, the executor `super::router`) are embedded as
oracle parameters or as small records carrying exactly the observations
the embedded code makes of them.
-/

namespace SurrealLocal

/-- Modelled from the spec: `iam::Level` (not under src/); the bootstrapper
only distinguishes the `Root` variant (root-level credentials) from every
other level (spec section 3: `root_credentials: optional`). -/
inductive Level
  | No
  | Root
  | Ns
  | Db
  | Sc
deriving DecidableEq, Repr

/-- `opt::auth::Root` — a root username/password pair (borrowed `&str` fields
embedded as `String`). -/
structure Root where
  username : String
  password : String
deriving DecidableEq, Repr

/-- Modelled from the spec: the configuration bundle of an Engine Descriptor
(spec section 3), with exactly the fields read by `router` in native.rs:
`auth`, `username`, `password`, `strict`, `query_timeout`,
`transaction_timeout`, `notifications`. Durations are embedded as `Option Nat`. -/
structure Config where
  auth : Level
  username : String
  password : String
  strict : Bool
  query_timeout : Option Nat
  transaction_timeout : Option Nat
  notifications : Bool
deriving DecidableEq, Repr

/-- Modelled from the spec: the default configuration (no root credentials,
nothing strict, no timeouts, notifications off), used by the plain-string
IndxDb endpoint form (`config: Default::default()`). -/
def Config.default : Config :=
  { auth := Level.No
    username := ""
    password := ""
    strict := false
    query_timeout := none
    transaction_timeout := none
    notifications := false }

instance : Inhabited Config := ⟨Config.default⟩

/-- A parsed URL (`url::Url`, external crate), embedded as the three
observations the code makes of it: `scheme()`, `as_str()` (the full text),
and the result of `to_file_path()` (`none` when the conversion fails). -/
structure Url where
  scheme : String
  text : String
  file_path : Option String
deriving DecidableEq, Repr

/-- `opt::Endpoint` — a resolved address plus its configuration bundle. -/
structure Endpoint where
  endpoint : Url
  config : Config
deriving DecidableEq, Repr

/-- `api::err::Error`, restricted to the variants this subsystem produces:
`InvalidUrl` carrying the original URL text, a wrapped engine error
(`error.into()` on a `Datastore` failure, payload embedded as `String`),
and the connection-closed condition of a dropped setup channel. -/
inductive Error
  | InvalidUrl (url : String)
  | Db (msg : String)
  | ConnClosed
deriving DecidableEq, Repr

/-- Modelled from the spec: the Storage/Query Engine instance
(`kvs::Datastore`, external collaborator, spec section 6). Only the
constructor location string and the configuration flags written by the
bootstrapper's setters are carried. -/
structure Datastore where
  path : String
  auth_enabled : Bool := false
  strict : Bool := false
  query_timeout : Option Nat := none
  transaction_timeout : Option Nat := none
  notifications : Bool := false
deriving DecidableEq, Repr

/-- Modelled from the spec: configuration setter `set auth-enabled(bool)`
(spec section 6), a pure record update returning the configured instance. -/
def Datastore.with_auth_enabled (kvs : Datastore) (enabled : Bool) : Datastore :=
  { kvs with auth_enabled := enabled }

/-- Modelled from the spec: configuration setter `set strict mode(bool)`. -/
def Datastore.with_strict_mode (kvs : Datastore) (strict : Bool) : Datastore :=
  { kvs with strict := strict }

/-- Modelled from the spec: configuration setter `set query timeout`. -/
def Datastore.with_query_timeout (kvs : Datastore) (timeout : Option Nat) : Datastore :=
  { kvs with query_timeout := timeout }

/-- Modelled from the spec: configuration setter `set transaction timeout`. -/
def Datastore.with_transaction_timeout (kvs : Datastore) (timeout : Option Nat) : Datastore :=
  { kvs with transaction_timeout := timeout }

/-- Modelled from the spec: configuration setter `enable notifications()`. -/
def Datastore.with_notifications (kvs : Datastore) : Datastore :=
  { kvs with notifications := true }

/-- `api::conn::Method` — an opaque method tag (not under src/); the routing
code only carries it through, so it is embedded as an abstract code. -/
structure Method where
  code : Nat
deriving DecidableEq, Repr

/-- `api::conn::Param` — opaque request parameters, carried through only. -/
structure Param where
  code : Nat
deriving DecidableEq, Repr

/-- The value produced by executing one request — opaque to the dispatcher. -/
structure Value where
  code : Nat
deriving DecidableEq, Repr

/-- The request triple `(i64, Method, Param)` placed in a `Route`. -/
abbrev Request := Int × Method × Param

/-- `api::conn::Route` — one request envelope. The private one-shot reply
channel (`response: sender`) is embedded by the delivery oracle passed to
`dispatchLoop`, keyed by the route itself. -/
structure Route where
  id : Int
  method : Method
  param : Param
deriving DecidableEq, Repr

/-- The kind of queue `flume` builds for the route channel: unbounded, or
bounded with a given capacity (a bounded queue suspends senders once full —
a property of the external `flume` library, recorded here only as the kind). -/
inductive ChannelKind
  | unbounded
  | bounded (capacity : Nat)
deriving DecidableEq, Repr

/-- `api::ExtraFeatures` — only the `Backup` capability is ever inserted. -/
inductive ExtraFeatures
  | Backup
deriving DecidableEq, Repr

/-- `api::conn::Router` — the connection handle's shared state: the
advertised capability set (a one-element `HashSet` embedded as a list), the
route-channel sender (embedded by its kind), and the shared request-id
counter `last_id: AtomicI64::new(0)`. -/
structure Router where
  features : List ExtraFeatures
  sender : ChannelKind
  last_id : Int
deriving DecidableEq, Repr

/-- The local `Db` connection type: `Connection::new` stores the method. -/
structure Db where
  method : Method
deriving DecidableEq, Repr

/-- `Connection::new for Db`. -/
def Db.new (method : Method) : Db :=
  { method := method }

/-- `Connection::send for Db` (native.rs lines 69–83): builds the Route with
request `(0, self.method, param)` and enqueues it; the handle's `last_id`
counter is not touched, so the (unchanged) Router is returned with the Route. -/
def Db.send (conn : Db) (r : Router) (param : Param) : Router × Route :=
  (r, { id := 0, method := conn.method, param := param })

/-- Route-channel construction in `Connection::connect for Db`
(native.rs lines 44–47): capacity 0 yields `flume::unbounded()`, any other
capacity yields `flume::bounded(capacity)`. -/
def route_channel (capacity : Nat) : ChannelKind :=
  match capacity with
  | 0 => ChannelKind.unbounded
  | capacity => ChannelKind.bounded capacity

/-- The four file-backed backend schemes of the path match in `router`. -/
def file_backed (scheme : String) : Bool :=
  scheme = "fdb" || scheme = "rocksdb" || scheme = "speedb" || scheme = "file"

/-- Backend-location derivation in `router` (native.rs lines 102–113):
`mem` maps to the literal "memory"; a file-backed scheme resolves the URL to
a filesystem path and formats `"{scheme}://{path}"`, failing with
`InvalidUrl` on the original URL text when `to_file_path()` fails; any other
scheme passes the full URL text through. -/
def derive_path (url : Url) : Except Error String :=
  if url.scheme = "mem" then
    Except.ok "memory"
  else if file_backed url.scheme then
    match url.file_path with
    | some p => Except.ok (url.scheme ++ "://" ++ p)
    | none => Except.error (Error.InvalidUrl url.text)
  else
    Except.ok url.text

/-- `configured_root` in `router` (native.rs lines 93–99): root credentials
exactly when the configured auth level is `Root`. -/
def configured_root (address : Endpoint) : Option Root :=
  match address.config.auth with
  | Level.Root => some { username := address.config.username, password := address.config.password }
  | _ => none

/-- Configuration application in `router` (native.rs lines 134–142): the
chained setters for strict mode and both timeouts, then the notifications
toggle applied only when `config.notifications` is true. -/
def applyConfig (kvs : Datastore) (config : Config) : Datastore :=
  let kvs :=
    ((kvs.with_strict_mode config.strict).with_query_timeout
        config.query_timeout).with_transaction_timeout config.transaction_timeout
  match config.notifications with
  | true => kvs.with_notifications
  | false => kvs

/-- The observable outcome of the `router` bootstrap (native.rs lines 86–143):
the messages sent on the single-slot setup channel `conn_tx`, the credential
provisioning invocations made on the engine, and, when the bootstrap
succeeds, the configured engine instance the dispatch loop runs with
(`none` means the loop is never entered). -/
structure RouterResult where
  setup_messages : List (Except Error Unit)
  creds_calls : List Root
  loop_kvs : Option Datastore
deriving Repr

/-- The `router` bootstrap (native.rs lines 86–143). `dsNew` embeds the
external `Datastore::new` constructor, `setupCreds` embeds the external
`setup_initial_creds` operation; both are fallible oracles. -/
def router (address : Endpoint) (dsNew : String → Except String Datastore)
    (setupCreds : Datastore → Root → Except String Unit) : RouterResult :=
  match derive_path address.endpoint with
  | Except.error e =>
      { setup_messages := [Except.error e], creds_calls := [], loop_kvs := none }
  | Except.ok path =>
    match dsNew path with
    | Except.ok kvs =>
      match configured_root address with
      | some root =>
        match setupCreds kvs root with
        | Except.error e =>
            { setup_messages := [Except.error (Error.Db e)], creds_calls := [root],
              loop_kvs := none }
        | Except.ok _ =>
            { setup_messages := [Except.ok ()], creds_calls := [root],
              loop_kvs := some (applyConfig (kvs.with_auth_enabled true) address.config) }
      | none =>
          { setup_messages := [Except.ok ()], creds_calls := [],
            loop_kvs := some (applyConfig (kvs.with_auth_enabled false) address.config) }
    | Except.error e =>
        { setup_messages := [Except.error (Error.Db e)], creds_calls := [], loop_kvs := none }

/-- The dispatch loop (native.rs lines 144–158),
`while let Some(Some(route)) = stream.next().await`: the queue is the finite
sequence of items the route channel yields before closing (`none` is the
explicit termination sentinel). `exec` embeds the external executor
`super::router(route.request, &kvs, &mut session, &mut vars)` acting on a
dispatcher-owned state `σ` (session plus variable bindings); `deliver`
embeds the best-effort one-shot reply send, whose result the code discards
(`let _ = route.response.into_send_async(..)`). The output lists, in order,
each executed route with the single reply sent on its private channel and
the discarded delivery outcome. -/
def dispatchLoop {σ : Type} (exec : Request → Datastore → σ → Except String Value × σ)
    (deliver : Route → Except String Value → Bool) (kvs : Datastore) (st : σ) :
    List (Option Route) → List (Route × Except String Value × Bool)
  | [] => []
  | none :: _ => []
  | some route :: rest =>
      let r := exec (route.id, route.method, route.param) kvs st
      (route, r.1, deliver route r.1) :: dispatchLoop exec deliver kvs r.2 rest

/-- The routes the dispatch loop executes: the longest prefix of live routes
before the first sentinel (or the whole queue when the channel just closes). -/
def executedRoutes : List (Option Route) → List Route
  | [] => []
  | none :: _ => []
  | some route :: rest => route :: executedRoutes rest

/-- Run the connection's dispatch phase from a bootstrap outcome: when the
bootstrap failed the loop is never entered and nothing is executed. -/
def RouterResult.run {σ : Type} (rr : RouterResult)
    (exec : Request → Datastore → σ → Except String Value × σ)
    (deliver : Route → Except String Value → Bool) (st : σ)
    (queue : List (Option Route)) : List (Route × Except String Value × Bool) :=
  match rr.loop_kvs with
  | none => []
  | some kvs => dispatchLoop exec deliver kvs st queue

/-- `Connection::connect for Db` (native.rs lines 39–67): builds the route
channel from the capacity, spawns the bootstrap, awaits the one setup
message (`conn_rx.into_recv_async().await??`), and on success returns the
handle with the singleton `Backup` capability set and `last_id` zero.
A dropped setup channel (which the bootstrap never does) would surface as a
receive error, embedded as `ConnClosed`. -/
def connect (address : Endpoint) (capacity : Nat)
    (dsNew : String → Except String Datastore)
    (setupCreds : Datastore → Root → Except String Unit) : Except Error Router :=
  match (router address dsNew setupCreds).setup_messages.head? with
  | some (Except.ok _) =>
      Except.ok { features := [ExtraFeatures.Backup], sender := route_channel capacity,
                  last_id := 0 }
  | some (Except.error e) => Except.error e
  | none => Except.error Error.ConnClosed

/-- `IntoEndpoint<IndxDb>` for plain strings
(src/lib/src/api/opt/endpoint/indxdb.rs, the `&str`/`&String`/`String`
instances of the `endpoints!` macro, all with the same body): formats
`"indxdb://{self}"`, parses it (the external `Url::parse` is the `parseUrl`
oracle), maps a parse failure to `InvalidUrl` carrying the formatted URL
text, and pairs the parsed URL with the default configuration. -/
def indxdb_into_endpoint (parseUrl : String → Option Url) (s : String) :
    Except Error Endpoint :=
  let url := "indxdb://" ++ s
  match parseUrl url with
  | some u => Except.ok { endpoint := u, config := Config.default }
  | none => Except.error (Error.InvalidUrl url)

/-- `IntoEndpoint<IndxDb>` for `(string, Config)` pairs: resolves the plain
form, then replaces the configuration with the given one. -/
def indxdb_into_endpoint_with_config (parseUrl : String → Option Url) (s : String)
    (c : Config) : Except Error Endpoint :=
  match indxdb_into_endpoint parseUrl s with
  | Except.ok e => Except.ok { e with config := c }
  | Except.error err => Except.error err

/-! Concrete sample inputs used by the closed witness theorems below. -/

/-- A `mem://` URL as the endpoint resolver would produce it. -/
def urlMem : Url := { scheme := "mem", text := "mem://", file_path := none }

/-- A `file://` URL whose `to_file_path()` succeeds. -/
def urlFileOk : Url := { scheme := "file", text := "file:///tmp/db", file_path := some "/tmp/db" }

/-- A `file://` URL whose `to_file_path()` fails (e.g. a host component). -/
def urlFileBad : Url := { scheme := "file", text := "file://host/db", file_path := none }

/-- A URL with a scheme outside the `mem`/file-backed cases. -/
def urlOther : Url := { scheme := "tikv", text := "tikv://127.0.0.1:2379", file_path := none }

/-- Descriptor for `mem://` with the default configuration. -/
def addrMem : Endpoint := { endpoint := urlMem, config := Config.default }

/-- Descriptor for the unresolvable file URL. -/
def addrFileBad : Endpoint := { endpoint := urlFileBad, config := Config.default }

/-- A configuration with root-level credentials. -/
def rootCfg : Config :=
  { Config.default with auth := Level.Root, username := "root", password := "secret" }

/-- Descriptor for `mem://` with root credentials configured. -/
def addrMemRoot : Endpoint := { endpoint := urlMem, config := rootCfg }

/-- An engine constructor oracle that always succeeds. -/
def dsNewOk : String → Except String Datastore := fun p => Except.ok { path := p }

/-- An engine constructor oracle that always fails. -/
def dsNewFail : String → Except String Datastore := fun _ => Except.error "construct"

/-- A credential-provisioning oracle that always succeeds. -/
def credsOk : Datastore → Root → Except String Unit := fun _ _ => Except.ok ()

/-- A credential-provisioning oracle that always fails. -/
def credsFail : Datastore → Root → Except String Unit := fun _ _ => Except.error "creds"

/-- A freshly connected handle, as `connect` builds it. -/
def router0 : Router :=
  { features := [ExtraFeatures.Backup], sender := ChannelKind.unbounded, last_id := 0 }

/-- A trivial executor oracle over a unit dispatcher state. -/
def execUnit : Request → Datastore → Unit → Except String Value × Unit :=
  fun _ _ _ => (Except.ok ⟨0⟩, ())

/-- A delivery oracle whose reply sends all succeed. -/
def deliverAll : Route → Except String Value → Bool :=
  fun _ _ => true

/-- A delivery oracle whose reply receivers are all abandoned. -/
def deliverNone : Route → Except String Value → Bool :=
  fun _ _ => false

/-- A sample route. -/
def routeEx : Route := { id := 0, method := ⟨0⟩, param := ⟨0⟩ }

/-- The engine instance `dsNewOk` builds for the in-memory location. -/
def dsMemory : Datastore := { path := "memory" }

/-- A configuration exercising every setting the bootstrapper applies. -/
def cfgFull : Config :=
  { auth := Level.Root, username := "root", password := "secret", strict := true,
    query_timeout := some 5, transaction_timeout := some 7, notifications := true }

/-- Descriptor for `mem://` with the full configuration. -/
def addrMemFull : Endpoint := { endpoint := urlMem, config := cfgFull }

/-- The engine instance the dispatch loop runs with under `addrMemFull`. -/
def kFull : Datastore :=
  { path := "memory", auth_enabled := true, strict := true, query_timeout := some 5,
    transaction_timeout := some 7, notifications := true }

/-- The handle `connect` returns for capacity 2. -/
def routerMem2 : Router :=
  { features := [ExtraFeatures.Backup], sender := ChannelKind.bounded 2, last_id := 0 }

/-- A `Url::parse` oracle that accepts every string. -/
def parseSome : String → Option Url :=
  fun t => some { scheme := "indxdb", text := t, file_path := none }

/-- A `Url::parse` oracle that rejects every string. -/
def parseNone : String → Option Url := fun _ => none

/-- C1, counterexample: on two consecutive `send` calls on one handle the
Route ids are 0 and 0 — the second id is not greater than the first, and the
handle's shared counter still holds its initial value 0 after both calls, so
the id is not the next value allocated from the counter and the ids are not
monotonically increasing across the sequence. -/
theorem send_constant_id_cex :
    (Db.send (Db.new ⟨0⟩) router0 ⟨0⟩).2.id = 0
    ∧ (Db.send (Db.new ⟨1⟩) (Db.send (Db.new ⟨0⟩) router0 ⟨0⟩).1 ⟨1⟩).2.id = 0
    ∧ ¬ (Db.send (Db.new ⟨0⟩) router0 ⟨0⟩).2.id
        < (Db.send (Db.new ⟨1⟩) (Db.send (Db.new ⟨0⟩) router0 ⟨0⟩).1 ⟨1⟩).2.id
    ∧ (Db.send (Db.new ⟨1⟩) (Db.send (Db.new ⟨0⟩) router0 ⟨0⟩).1 ⟨1⟩).1.last_id = 0 := by
  decide

/-- C1, amended: every `send` on the local engine places the constant 0 as
the Route id and leaves the handle (including its `last_id` counter,
initialized to zero) unchanged; the counter is never consumed. -/
theorem send_id_always_zero (conn : Db) (r : Router) (param : Param) :
    (Db.send conn r param).2.id = 0 ∧ (Db.send conn r param).1 = r :=
  ⟨rfl, rfl⟩

/-- C2: backend-location derivation — scheme `mem` yields the literal
"memory"; a file-backed scheme (fdb, rocksdb, speedb, file) yields
`"{scheme}://{path}"` when the URL resolves to a filesystem path, and on
resolution failure yields `InvalidUrl` carrying the original URL text with
the bootstrap signalling exactly that failure and never entering the loop;
any other scheme passes the full URL text through unchanged. -/
theorem derive_path_cases (url : Url) :
    (url.scheme = "mem" → derive_path url = Except.ok "memory")
    ∧ (url.scheme ∈ ["fdb", "rocksdb", "speedb", "file"] →
        (∀ p, url.file_path = some p →
            derive_path url = Except.ok (url.scheme ++ "://" ++ p))
        ∧ (url.file_path = none →
            derive_path url = Except.error (Error.InvalidUrl url.text)
            ∧ ∀ config dsNew setupCreds,
                router { endpoint := url, config := config } dsNew setupCreds
                  = { setup_messages := [Except.error (Error.InvalidUrl url.text)],
                      creds_calls := [], loop_kvs := none }))
    ∧ (url.scheme ≠ "mem" → url.scheme ∉ ["fdb", "rocksdb", "speedb", "file"] →
        derive_path url = Except.ok url.text) := by
  refine ⟨fun h => by simp [derive_path, h], fun hmem => ?_, fun hne hnot => ?_⟩
  · simp only [List.mem_cons, List.not_mem_nil, or_false] at hmem
    have hne : url.scheme ≠ "mem" := by rcases hmem with h | h | h | h <;> simp [h]
    have hfb : file_backed url.scheme = true := by
      unfold file_backed
      rcases hmem with h | h | h | h <;> simp [h]
    refine ⟨fun p hp => ?_, fun hp => ⟨?_, fun config dsNew setupCreds => ?_⟩⟩
    · simp [derive_path, hne, hfb, hp]
    · simp [derive_path, hne, hfb, hp]
    · simp [router, derive_path, hne, hfb, hp]
  · simp only [List.mem_cons, List.not_mem_nil, or_false, not_or] at hnot
    have hfb : file_backed url.scheme = false := by
      simp only [file_backed, Bool.or_eq_false_iff, decide_eq_false_iff_not]
      exact ⟨⟨⟨hnot.1, hnot.2.1⟩, hnot.2.2.1⟩, hnot.2.2.2⟩
    simp [derive_path, hne, hfb]

/-- C2, witness: the four branches at concrete URLs. -/
theorem derive_path_cases_witness :
    derive_path urlMem = Except.ok "memory"
    ∧ derive_path urlFileOk = Except.ok ("file" ++ "://" ++ "/tmp/db")
    ∧ derive_path urlFileBad = Except.error (Error.InvalidUrl "file://host/db")
    ∧ (router { endpoint := urlFileBad, config := Config.default } dsNewOk credsOk).loop_kvs
        = none
    ∧ derive_path urlOther = Except.ok "tikv://127.0.0.1:2379" := by
  refine ⟨(derive_path_cases urlMem).1 rfl,
          ((derive_path_cases urlFileOk).2.1 (by decide)).1 "/tmp/db" rfl,
          (((derive_path_cases urlFileBad).2.1 (by decide)).2 rfl).1,
          ?_,
          (derive_path_cases urlOther).2.2 (by decide) (by decide)⟩
  have h := (((derive_path_cases urlFileBad).2.1 (by decide)).2 rfl).2
    Config.default dsNewOk credsOk
  rw [h]

/-- C8: the route channel built by `connect` is unbounded exactly when the
requested capacity is zero, and bounded with exactly the requested capacity
for any positive capacity. -/
theorem route_channel_capacity :
    route_channel 0 = ChannelKind.unbounded
    ∧ ∀ capacity : Nat, 0 < capacity →
        route_channel capacity = ChannelKind.bounded capacity := by
  refine ⟨rfl, fun capacity h => ?_⟩
  cases capacity with
  | zero => exact absurd h (by decide)
  | succ n => rfl

/-- C3: on every bootstrap path exactly one message is sent on the setup
channel, and whenever that message is an error the dispatch loop is never
entered, so no subsequently enqueued Route is ever executed. -/
theorem router_setup_once (address : Endpoint)
    (dsNew : String → Except String Datastore)
    (setupCreds : Datastore → Root → Except String Unit) :
    (router address dsNew setupCreds).setup_messages.length = 1
    ∧ ∀ e, (router address dsNew setupCreds).setup_messages = [Except.error e] →
        (router address dsNew setupCreds).loop_kvs = none
        ∧ ∀ (σ : Type) (exec : Request → Datastore → σ → Except String Value × σ)
            (deliver : Route → Except String Value → Bool) (st : σ)
            (queue : List (Option Route)),
            (router address dsNew setupCreds).run exec deliver st queue = [] := by
  have hrun : ∀ rr : RouterResult, rr.loop_kvs = none →
      ∀ (σ : Type) (exec : Request → Datastore → σ → Except String Value × σ)
        (deliver : Route → Except String Value → Bool) (st : σ)
        (queue : List (Option Route)), rr.run exec deliver st queue = [] := by
    intro rr h σ exec deliver st queue
    simp [RouterResult.run, h]
  rcases hd : derive_path address.endpoint with e | path
  · exact ⟨by simp [router, hd], fun e' _ =>
      ⟨by simp [router, hd], hrun _ (by simp [router, hd])⟩⟩
  · rcases hn : dsNew path with e | kvs
    · exact ⟨by simp [router, hd, hn], fun e' _ =>
        ⟨by simp [router, hd, hn], hrun _ (by simp [router, hd, hn])⟩⟩
    · rcases hr : configured_root address with _ | root
      · refine ⟨by simp [router, hd, hn, hr], fun e' he' => ?_⟩
        exact absurd he' (by simp [router, hd, hn, hr])
      · rcases hc : setupCreds kvs root with e | u
        · exact ⟨by simp [router, hd, hn, hr, hc], fun e' _ =>
            ⟨by simp [router, hd, hn, hr, hc], hrun _ (by simp [router, hd, hn, hr, hc])⟩⟩
        · refine ⟨by simp [router, hd, hn, hr, hc], fun e' he' => ?_⟩
          exact absurd he' (by simp [router, hd, hn, hr, hc])

/-- C3, witness: the unresolvable file URL signals one failure message and
executes nothing from a nonempty queue. -/
theorem router_setup_once_witness :
    (router addrFileBad dsNewOk credsOk).setup_messages.length = 1
    ∧ (router addrFileBad dsNewOk credsOk).loop_kvs = none
    ∧ (router addrFileBad dsNewOk credsOk).run execUnit deliverAll () [some routeEx] = [] := by
  have h := router_setup_once addrFileBad dsNewOk credsOk
  have h2 := h.2 (Error.InvalidUrl "file://host/db") (by rfl)
  exact ⟨h.1, h2.1, h2.2 Unit execUnit deliverAll () [some routeEx]⟩

/-- The loop ignores everything after a sentinel: only the prefix before the
first `none` matters. -/
theorem dispatchLoop_sentinel_stops {σ : Type}
    (exec : Request → Datastore → σ → Except String Value × σ)
    (deliver : Route → Except String Value → Bool) (kvs : Datastore) (st : σ)
    (pending rest : List (Option Route)) :
    dispatchLoop exec deliver kvs st (pending ++ none :: rest)
      = dispatchLoop exec deliver kvs st (pending ++ [none]) := by
  induction pending generalizing st with
  | nil => rfl
  | cons item tail ih =>
    cases item with
    | none => rfl
    | some route =>
      simp only [List.cons_append, dispatchLoop]
      exact congrArg (List.cons _) (ih _)

/-- The executed routes are exactly the first projection of the loop output,
whatever the delivery outcomes. -/
theorem dispatchLoop_fst_executed {σ : Type}
    (exec : Request → Datastore → σ → Except String Value × σ)
    (deliver : Route → Except String Value → Bool) (kvs : Datastore) (st : σ)
    (queue : List (Option Route)) :
    (dispatchLoop exec deliver kvs st queue).map (fun x => x.1) = executedRoutes queue := by
  induction queue generalizing st with
  | nil => rfl
  | cons item tail ih =>
    cases item with
    | none => rfl
    | some route =>
      simp only [dispatchLoop, List.map_cons, executedRoutes]
      exact congrArg (List.cons _) (ih _)

/-- A queue of live routes only is drained completely. -/
theorem executedRoutes_map_some (rs : List Route) :
    executedRoutes (rs.map some) = rs := by
  induction rs with
  | nil => rfl
  | cons route tail ih => simp only [List.map_cons, executedRoutes, ih]

/-- C4: when the dispatcher dequeues the termination sentinel the loop stops
immediately — the loop's whole output on `pending ++ sentinel ++ rest` equals
its output on `pending ++ sentinel`, so no Route enqueued after the sentinel
is ever executed or replied to, however many items remain queued; and on a
sentinel-free queue that ends (channel closed and drained) every queued
route is executed, after which the loop stops. -/
theorem dispatch_sentinel_semantics {σ : Type}
    (exec : Request → Datastore → σ → Except String Value × σ)
    (deliver : Route → Except String Value → Bool) (kvs : Datastore) (st : σ)
    (pending rest : List (Option Route)) (rs : List Route) :
    dispatchLoop exec deliver kvs st (pending ++ none :: rest)
      = dispatchLoop exec deliver kvs st (pending ++ [none])
    ∧ (dispatchLoop exec deliver kvs st (rs.map some)).map (fun x => x.1) = rs :=
  ⟨dispatchLoop_sentinel_stops exec deliver kvs st pending rest,
    (dispatchLoop_fst_executed exec deliver kvs st (rs.map some)).trans
      (executedRoutes_map_some rs)⟩

/-- Replies and subsequent processing do not depend on whether any reply
delivery succeeded: the (route, reply) trace is the same under any two
delivery oracles. -/
theorem dispatchLoop_deliver_irrelevant {σ : Type}
    (exec : Request → Datastore → σ → Except String Value × σ)
    (d₁ d₂ : Route → Except String Value → Bool) (kvs : Datastore) (st : σ)
    (queue : List (Option Route)) :
    (dispatchLoop exec d₁ kvs st queue).map (fun x => (x.1, x.2.1))
      = (dispatchLoop exec d₂ kvs st queue).map (fun x => (x.1, x.2.1)) := by
  induction queue generalizing st with
  | nil => rfl
  | cons item tail ih =>
    cases item with
    | none => rfl
    | some route =>
      simp only [dispatchLoop, List.map_cons]
      exact congrArg (List.cons _) (ih _)

/-- C5: every executed Route gets exactly one reply on its private channel —
the loop's reply trace lists each executed route once, in order, paired with
the executor's result (the Ok value on success, the error on failure, as the
step equation shows) — and a failed delivery (abandoned receiver) is
discarded: the trace is identical under any two delivery oracles and the
loop continues with the rest of the queue. -/
theorem dispatch_reply_per_route {σ : Type}
    (exec : Request → Datastore → σ → Except String Value × σ)
    (d₁ d₂ : Route → Except String Value → Bool) (kvs : Datastore) (st : σ)
    (queue rest : List (Option Route)) (route : Route) :
    (dispatchLoop exec d₁ kvs st queue).map (fun x => (x.1, x.2.1))
      = (dispatchLoop exec d₂ kvs st queue).map (fun x => (x.1, x.2.1))
    ∧ (dispatchLoop exec d₁ kvs st queue).map (fun x => x.1) = executedRoutes queue
    ∧ dispatchLoop exec d₁ kvs st (some route :: rest)
        = (route, (exec (route.id, route.method, route.param) kvs st).1,
            d₁ route (exec (route.id, route.method, route.param) kvs st).1)
          :: dispatchLoop exec d₁ kvs
              (exec (route.id, route.method, route.param) kvs st).2 rest :=
  ⟨dispatchLoop_deliver_irrelevant exec d₁ d₂ kvs st queue,
    dispatchLoop_fst_executed exec d₁ kvs st queue, rfl⟩

/-- C8, witness: capacities 0 and 3. -/
theorem route_channel_capacity_witness :
    route_channel 0 = ChannelKind.unbounded
    ∧ 0 < 3 ∧ route_channel 3 = ChannelKind.bounded 3 :=
  ⟨route_channel_capacity.1, by decide, route_channel_capacity.2 3 (by decide)⟩

/-- When the one setup message is a success, `connect` returns the fresh
handle. -/
theorem connect_of_setup_ok (address : Endpoint) (capacity : Nat)
    (dsNew : String → Except String Datastore)
    (setupCreds : Datastore → Root → Except String Unit)
    (h : (router address dsNew setupCreds).setup_messages = [Except.ok ()]) :
    connect address capacity dsNew setupCreds
      = Except.ok { features := [ExtraFeatures.Backup], sender := route_channel capacity,
                    last_id := 0 } := by
  unfold connect
  rw [h]
  rfl

/-- When the one setup message is an error, `connect` propagates it. -/
theorem connect_of_setup_error (address : Endpoint) (capacity : Nat)
    (dsNew : String → Except String Datastore)
    (setupCreds : Datastore → Root → Except String Unit) (e : Error)
    (h : (router address dsNew setupCreds).setup_messages = [Except.error e]) :
    connect address capacity dsNew setupCreds = Except.error e := by
  unfold connect
  rw [h]
  rfl

/-- C6: credential bootstrap runs exactly for root-configured descriptors —
every provisioning invocation the bootstrap makes carries a root-configured
descriptor's credentials, and with root credentials configured and the
engine constructed, provisioning is invoked once with those credentials and
its failure becomes the connect result with the loop never started; with no
root credentials configured, provisioning is never invoked and connection
establishment succeeds whenever engine construction succeeds. -/
theorem router_creds_gating (address : Endpoint)
    (dsNew : String → Except String Datastore)
    (setupCreds : Datastore → Root → Except String Unit) :
    ((router address dsNew setupCreds).creds_calls ≠ [] → configured_root address ≠ none)
    ∧ (∀ root path kvs, configured_root address = some root →
        derive_path address.endpoint = Except.ok path → dsNew path = Except.ok kvs →
        (router address dsNew setupCreds).creds_calls = [root]
        ∧ ∀ e, setupCreds kvs root = Except.error e →
            (router address dsNew setupCreds).setup_messages = [Except.error (Error.Db e)]
            ∧ (router address dsNew setupCreds).loop_kvs = none
            ∧ ∀ capacity, connect address capacity dsNew setupCreds
                = Except.error (Error.Db e))
    ∧ (configured_root address = none →
        (router address dsNew setupCreds).creds_calls = []
        ∧ ∀ path kvs, derive_path address.endpoint = Except.ok path →
            dsNew path = Except.ok kvs →
            (router address dsNew setupCreds).loop_kvs
              = some (applyConfig (kvs.with_auth_enabled false) address.config)
            ∧ ∀ capacity, ∃ r, connect address capacity dsNew setupCreds = Except.ok r) := by
  rcases hd : derive_path address.endpoint with e | path
  · refine ⟨fun h => absurd ?_ h, fun root path kvs hroot hderive hds => ?_,
      fun hnone => ⟨?_, fun path kvs hderive hds => ?_⟩⟩
    · simp [router, hd]
    · exact Except.noConfusion hderive
    · simp [router, hd]
    · exact Except.noConfusion hderive
  · rcases hn : dsNew path with e | kvs
    · refine ⟨fun h => absurd ?_ h, fun root path' kvs' hroot hderive hds => ?_,
        fun hnone => ⟨?_, fun path' kvs' hderive hds => ?_⟩⟩
      · simp [router, hd, hn]
      · injection hderive with hp
        subst hp
        rw [hn] at hds
        exact Except.noConfusion hds
      · simp [router, hd, hn]
      · injection hderive with hp
        subst hp
        rw [hn] at hds
        exact Except.noConfusion hds
    · rcases hr : configured_root address with _ | root
      · refine ⟨fun h => absurd ?_ h, fun root' path' kvs' hroot hderive hds => ?_,
          fun _ => ⟨?_, fun path' kvs' hderive hds => ?_⟩⟩
        · simp [router, hd, hn, hr]
        · exact Option.noConfusion hroot
        · simp [router, hd, hn, hr]
        · injection hderive with hp
          subst hp
          rw [hn] at hds
          injection hds with hk
          subst hk
          refine ⟨by simp [router, hd, hn, hr], fun capacity => ?_⟩
          exact ⟨_, connect_of_setup_ok address capacity dsNew setupCreds
            (by simp [router, hd, hn, hr])⟩
      · rcases hc : setupCreds kvs root with e | u
        · refine ⟨fun _ => by simp [hr], fun root' path' kvs' hroot hderive hds => ?_,
            fun hnone => Option.noConfusion hnone⟩
          injection hroot with hro
          subst hro
          injection hderive with hp
          subst hp
          rw [hn] at hds
          injection hds with hk
          subst hk
          refine ⟨by simp [router, hd, hn, hr, hc], fun e' hce' => ?_⟩
          rw [hc] at hce'
          injection hce' with he
          subst he
          refine ⟨by simp [router, hd, hn, hr, hc], by simp [router, hd, hn, hr, hc],
            fun capacity => ?_⟩
          exact connect_of_setup_error address capacity dsNew setupCreds _
            (by simp [router, hd, hn, hr, hc])
        · refine ⟨fun _ => by simp [hr], fun root' path' kvs' hroot hderive hds => ?_,
            fun hnone => Option.noConfusion hnone⟩
          injection hroot with hro
          subst hro
          injection hderive with hp
          subst hp
          rw [hn] at hds
          injection hds with hk
          subst hk
          refine ⟨by simp [router, hd, hn, hr, hc], fun e' hce' => ?_⟩
          rw [hc] at hce'
          exact Except.noConfusion hce'

/-- C6, witness: root credentials whose provisioning fails make the connect
fail without a loop; the same failing provisioner is never consulted for a
rootless descriptor, which connects successfully. -/
theorem router_creds_gating_witness :
    (router addrMemRoot dsNewOk credsFail).creds_calls
        = [{ username := "root", password := "secret" }]
    ∧ (router addrMemRoot dsNewOk credsFail).setup_messages
        = [Except.error (Error.Db "creds")]
    ∧ (router addrMemRoot dsNewOk credsFail).loop_kvs = none
    ∧ connect addrMemRoot 1 dsNewOk credsFail = Except.error (Error.Db "creds")
    ∧ (router addrMem dsNewOk credsFail).creds_calls = []
    ∧ ∃ r, connect addrMem 1 dsNewOk credsFail = Except.ok r := by
  have h1 := (router_creds_gating addrMemRoot dsNewOk credsFail).2.1
    { username := "root", password := "secret" } "memory" dsMemory rfl rfl rfl
  have h2 := h1.2 "creds" rfl
  have h3 := (router_creds_gating addrMem dsNewOk credsFail).2.2 rfl
  have h4 := (h3.2 "memory" dsMemory rfl rfl).2 1
  exact ⟨h1.1, h2.1, h2.2.1, h2.2.2 1, h3.1, h4⟩

/-- C7: after a successful bootstrap the engine instance owned by the
dispatch loop carries the descriptor's whole configuration: the strict-mode
flag, the query timeout, the transaction timeout, the notifications toggle
(applied only when enabled, otherwise the constructed instance's state is
kept), the auth-enabled flag equal to whether root credentials were
configured, and the constructed backend location untouched. -/
theorem router_config_applied (address : Endpoint)
    (dsNew : String → Except String Datastore)
    (setupCreds : Datastore → Root → Except String Unit)
    (path : String) (kvs0 k : Datastore)
    (hderive : derive_path address.endpoint = Except.ok path)
    (hds : dsNew path = Except.ok kvs0)
    (hloop : (router address dsNew setupCreds).loop_kvs = some k) :
    k.strict = address.config.strict
    ∧ k.query_timeout = address.config.query_timeout
    ∧ k.transaction_timeout = address.config.transaction_timeout
    ∧ k.notifications = (if address.config.notifications then true else kvs0.notifications)
    ∧ k.auth_enabled = (configured_root address).isSome
    ∧ k.path = kvs0.path := by
  rcases hr : configured_root address with _ | root
  · have hk : applyConfig (kvs0.with_auth_enabled false) address.config = k := by
      simp [router, hderive, hds, hr] at hloop
      exact hloop
    subst hk
    cases hnotif : address.config.notifications <;>
      simp [applyConfig, Datastore.with_strict_mode, Datastore.with_query_timeout,
        Datastore.with_transaction_timeout, Datastore.with_notifications,
        Datastore.with_auth_enabled, hr, hnotif]
  · rcases hc : setupCreds kvs0 root with e | u
    · rw [router, hderive] at hloop
      simp [hds, hr, hc] at hloop
    · have hk : applyConfig (kvs0.with_auth_enabled true) address.config = k := by
        simp [router, hderive, hds, hr, hc] at hloop
        exact hloop
      subst hk
      cases hnotif : address.config.notifications <;>
        simp [applyConfig, Datastore.with_strict_mode, Datastore.with_query_timeout,
          Datastore.with_transaction_timeout, Datastore.with_notifications,
          Datastore.with_auth_enabled, hr, hnotif]

/-- C7, witness: the full configuration at the in-memory backend. -/
theorem router_config_applied_witness :
    kFull.strict = addrMemFull.config.strict
    ∧ kFull.query_timeout = addrMemFull.config.query_timeout
    ∧ kFull.transaction_timeout = addrMemFull.config.transaction_timeout
    ∧ kFull.notifications
        = (if addrMemFull.config.notifications then true else dsMemory.notifications)
    ∧ kFull.auth_enabled = (configured_root addrMemFull).isSome
    ∧ kFull.path = dsMemory.path :=
  router_config_applied addrMemFull dsNewOk credsOk "memory" dsMemory kFull rfl rfl rfl

/-- C9: whenever `connect` succeeds, the returned handle advertises exactly
the singleton `Backup` capability set — independent of the descriptor — and
carries the capacity-derived channel and the zero-initialized counter. -/
theorem connect_features_backup (address : Endpoint) (capacity : Nat)
    (dsNew : String → Except String Datastore)
    (setupCreds : Datastore → Root → Except String Unit) (r : Router)
    (h : connect address capacity dsNew setupCreds = Except.ok r) :
    r.features = [ExtraFeatures.Backup] ∧ r.sender = route_channel capacity
    ∧ r.last_id = 0 := by
  unfold connect at h
  rcases hm : (router address dsNew setupCreds).setup_messages.head? with _ | m
  · rw [hm] at h
    exact Except.noConfusion h
  · rcases m with e | u
    · rw [hm] at h
      exact Except.noConfusion h
    · rw [hm] at h
      injection h with hr
      subst hr
      exact ⟨rfl, rfl, rfl⟩

/-- C9, witness: a concrete successful connect at capacity 2. -/
theorem connect_features_backup_witness :
    connect addrMem 2 dsNewOk credsOk = Except.ok routerMem2
    ∧ routerMem2.features = [ExtraFeatures.Backup]
    ∧ routerMem2.sender = route_channel 2
    ∧ routerMem2.last_id = 0 :=
  ⟨rfl, connect_features_backup addrMem 2 dsNewOk credsOk routerMem2 rfl⟩

/-- C10: resolving an IndxDb endpoint from a (string, config) pair equals
resolving it from the string alone with only the config field replaced: the
pair form is the config-replacement image of the plain form; both produce
the URL parsed from `"indxdb://" ++ s` (the plain form with the default
config), and both fail with `InvalidUrl` carrying exactly that URL text
precisely when parsing fails. -/
theorem indxdb_endpoint_config_relation (parseUrl : String → Option Url) (s : String)
    (c : Config) :
    indxdb_into_endpoint_with_config parseUrl s c
      = (indxdb_into_endpoint parseUrl s).map (fun e => { e with config := c })
    ∧ (∀ u, parseUrl ("indxdb://" ++ s) = some u →
        indxdb_into_endpoint parseUrl s
          = Except.ok { endpoint := u, config := Config.default }
        ∧ indxdb_into_endpoint_with_config parseUrl s c
            = Except.ok { endpoint := u, config := c })
    ∧ (parseUrl ("indxdb://" ++ s) = none →
        indxdb_into_endpoint parseUrl s
          = Except.error (Error.InvalidUrl ("indxdb://" ++ s))
        ∧ indxdb_into_endpoint_with_config parseUrl s c
            = Except.error (Error.InvalidUrl ("indxdb://" ++ s))) := by
  rcases hp : parseUrl ("indxdb://" ++ s) with _ | u
  · refine ⟨?_, fun u hu => ?_, fun _ => ?_⟩
    · simp [indxdb_into_endpoint_with_config, indxdb_into_endpoint, hp, Except.map]
    · exact Option.noConfusion hu
    · constructor <;> simp [indxdb_into_endpoint_with_config, indxdb_into_endpoint, hp]
  · refine ⟨?_, fun u' hu => ?_, fun hn => ?_⟩
    · simp [indxdb_into_endpoint_with_config, indxdb_into_endpoint, hp, Except.map]
    · injection hu with huu
      subst huu
      constructor <;> simp [indxdb_into_endpoint_with_config, indxdb_into_endpoint, hp]
    · exact Option.noConfusion hn

/-- C10, witness: a parse oracle that accepts and one that rejects, with a
non-default configuration. -/
theorem indxdb_endpoint_config_relation_witness :
    indxdb_into_endpoint parseSome "MyDatabase"
      = Except.ok { endpoint := { scheme := "indxdb", text := "indxdb://" ++ "MyDatabase",
                                  file_path := none },
                    config := Config.default }
    ∧ indxdb_into_endpoint_with_config parseSome "MyDatabase" rootCfg
      = Except.ok { endpoint := { scheme := "indxdb", text := "indxdb://" ++ "MyDatabase",
                                  file_path := none },
                    config := rootCfg }
    ∧ indxdb_into_endpoint parseNone "MyDatabase"
      = Except.error (Error.InvalidUrl ("indxdb://" ++ "MyDatabase"))
    ∧ indxdb_into_endpoint_with_config parseNone "MyDatabase" rootCfg
      = Except.error (Error.InvalidUrl ("indxdb://" ++ "MyDatabase")) := by
  have h1 := (indxdb_endpoint_config_relation parseSome "MyDatabase" rootCfg).2.1
    { scheme := "indxdb", text := "indxdb://" ++ "MyDatabase", file_path := none } rfl
  have h2 := (indxdb_endpoint_config_relation parseNone "MyDatabase" rootCfg).2.2 rfl
  exact ⟨h1.1, h1.2, h2.1, h2.2⟩

end SurrealLocal
